import Mathlib

/-!
Verification of the period-summary core of the finance-tracker backend.

The development shallow-embeds the code of
`internal/services/summary_service.go` and the persisted model of
`internal/models/financial_summary.go`:

* Go `time.Time` values (wall clock in the caller's fixed location) are
  embedded as `GoDate`: a proleptic-Gregorian civil date plus a
  nanoseconds-within-day component.  The Go standard library's calendar
  arithmetic (`AddDate`, `time.Date` normalization, `Weekday`) is embedded
  by `GoDate.addDate`, `goDate` and `GoDate.weekday`; the location is a
  constant of the whole computation (the service never converts zones) and
  is therefore not represented.
* The GORM-backed store is embedded as an explicit `DBState` (the persisted
  summary rows plus the income and expense transaction tables); monetary
  amounts (`float64` columns summed by the database) are embedded as
  rationals.
* Error values produced with `fmt.Errorf` are embedded as the inductive
  `SvcErr`, one constructor per format string of the source.
-/

deriving instance DecidableEq for Except

set_option maxRecDepth 4000

/-- Embeds Go `isLeap` (`src/time`): `year%4 == 0 && (year%100 != 0 || year%400 == 0)`.
Equality with 0 is unaffected by the Go (truncated) versus Lean (Euclidean)
remainder convention. -/
def isLeapYear (year : Int) : Bool :=
  year % 4 == 0 && (year % 100 != 0 || year % 400 == 0)

/-- Number of days of month `m` (1..12) of year `y`, as Go `daysIn`. -/
def daysInMonth (y m : Int) : Int :=
  if m = 2 then (if isLeapYear y then 29 else 28)
  else if m = 4 ∨ m = 6 ∨ m = 9 ∨ m = 11 then 30
  else 31

/-- Cumulative day counts before each month in a non-leap year, as Go's
`daysBefore` table. -/
def daysBeforeMonth (m : Int) : Int :=
  if m = 1 then 0
  else if m = 2 then 31
  else if m = 3 then 59
  else if m = 4 then 90
  else if m = 5 then 120
  else if m = 6 then 151
  else if m = 7 then 181
  else if m = 8 then 212
  else if m = 9 then 243
  else if m = 10 then 273
  else if m = 11 then 304
  else 334

/-- Days from the proleptic-Gregorian date 0000-01-01 to the start of year
`y` (integer division is Euclidean, which coincides with floor division for
the positive literal divisors used here). -/
def daysToYearStart (y : Int) : Int :=
  365 * y + (y - 1) / 4 - (y - 1) / 100 + (y - 1) / 400 + 1

/-- A Go `time.Time` in the caller's (fixed) location: a civil wall-clock
date plus the nanoseconds elapsed since that day's midnight. -/
structure GoDate where
  year : Int
  month : Int
  day : Int
  tod : Int
deriving DecidableEq, Repr

/-- Nanoseconds per day. -/
def nsPerDay : Int := 86400000000000

/-- The `GoDate` values representable by Go's normalized `time.Time`. -/
def GoDate.Valid (t : GoDate) : Prop :=
  1 ≤ t.month ∧ t.month ≤ 12 ∧ 1 ≤ t.day ∧ t.day ≤ daysInMonth t.year t.month ∧
    0 ≤ t.tod ∧ t.tod < nsPerDay

instance (t : GoDate) : Decidable t.Valid := by
  unfold GoDate.Valid; infer_instance

/-- Day number of a civil date, counted from 0000-01-01 (Go converts wall
dates to absolute day counts the same way: whole years, then the
`daysBefore` table, then a leap-day adjustment from March on). -/
def GoDate.toDays (t : GoDate) : Int :=
  daysToYearStart t.year + daysBeforeMonth t.month +
    (if isLeapYear t.year ∧ 3 ≤ t.month then 1 else 0) + t.day - 1

/-- Absolute instant (nanoseconds from 0000-01-01T00:00) of a `GoDate`;
Go's `Before`/`After`/`Equal` and SQL timestamp comparison order by this. -/
def GoDate.instant (t : GoDate) : Int :=
  t.toDays * nsPerDay + t.tod

/-- Go `Weekday()`: Sunday = 0 .. Saturday = 6.  0000-01-01 (day 0) was a
Saturday. -/
def GoDate.weekday (t : GoDate) : Int :=
  (t.toDays + 6) % 7

/-- Successor day of a civil date (clock kept). -/
def GoDate.nextDay (t : GoDate) : GoDate :=
  if t.day < daysInMonth t.year t.month then { t with day := t.day + 1 }
  else if t.month < 12 then { t with month := t.month + 1, day := 1 }
  else { year := t.year + 1, month := 1, day := 1, tod := t.tod }

/-- Predecessor day of a civil date (clock kept). -/
def GoDate.prevDay (t : GoDate) : GoDate :=
  if 1 < t.day then { t with day := t.day - 1 }
  else if 1 < t.month then { t with month := t.month - 1, day := daysInMonth t.year (t.month - 1) }
  else { year := t.year - 1, month := 12, day := 31, tod := t.tod }

/-- Iterated successor. -/
def GoDate.nextDays (t : GoDate) : Nat → GoDate
  | 0 => t
  | k + 1 => (t.nextDays k).nextDay

/-- Iterated predecessor. -/
def GoDate.prevDays (t : GoDate) : Nat → GoDate
  | 0 => t
  | k + 1 => (t.prevDays k).prevDay

/-- Shift a civil date by `n` days (the day-count component of Go's
calendar arithmetic). -/
def GoDate.addDays (t : GoDate) (n : Int) : GoDate :=
  if 0 ≤ n then t.nextDays n.toNat else t.prevDays (-n).toNat

/-- Go `time.Date(year, month, day, 0, 0, 0, tod-as-nanoseconds, loc)`:
the month is first normalized into 1..12 carrying whole years (Go `norm`,
floor semantics), and an out-of-range day then shifts the absolute day
count linearly, which is `addDays` from the 1st of the normalized month. -/
def goDate (year month day tod : Int) : GoDate :=
  let y := year + (month - 1) / 12
  let m := (month - 1) % 12 + 1
  GoDate.addDays ⟨y, m, 1, tod⟩ (day - 1)

/-- Go `Time.AddDate(years, months, days)`: `time.Date` applied to the
shifted civil components, keeping the clock. -/
def GoDate.addDate (t : GoDate) (years months days : Int) : GoDate :=
  goDate (t.year + years) (t.month + months) (t.day + days) t.tod

/-- The trailing normalization of `CalculatePeriodDates`:
`time.Date(t.Year(), t.Month(), t.Day(), 0, 0, 0, 0, loc)`. -/
def normalizeToMidnight (t : GoDate) : GoDate :=
  goDate t.year t.month t.day 0

/-- Embeds `CalculatePeriodDates` (summary_service.go).  The Go `switch` is
an equality chain on the granularity string; the trailing normalization
re-builds both boundaries at midnight via `time.Date`. -/
def CalculatePeriodDates (targetDate : GoDate) (summaryType : String) :
    Except String (GoDate × GoDate) :=
  let raw : Except String (GoDate × GoDate) :=
    if summaryType = "weekly" then
      let weekday := targetDate.weekday
      let daysToMonday := if weekday = 0 then -6 else 1 - weekday
      let startDate := targetDate.addDate 0 0 daysToMonday
      .ok (startDate, startDate.addDate 0 0 6)
    else if summaryType = "monthly" then
      let startDate := goDate targetDate.year targetDate.month 1 0
      .ok (startDate, startDate.addDate 0 1 (-1))
    else if summaryType = "yearly" then
      .ok (goDate targetDate.year 1 1 0, goDate targetDate.year 12 31 0)
    else
      .error ("invalid summary type: " ++ summaryType)
  match raw with
  | .error e => .error e
  | .ok (startDate, endDate) =>
      .ok (normalizeToMidnight startDate, normalizeToMidnight endDate)

/-- Embeds the persisted `models.FinancialSummary` row
(financial_summary.go).  The `gorm.Model` bookkeeping columns
(ID/CreatedAt/UpdatedAt/DeletedAt) play no role in the summary logic and
are omitted; the unique index `idx_type_period` covers
`(SummaryType, PeriodStartDate)`. -/
structure FinancialSummary where
  summaryType : String
  periodStartDate : GoDate
  periodEndDate : GoDate
  totalIncome : Rat
  totalExpenses : Rat
  netBalance : Rat
deriving DecidableEq, Repr

/-- An income or expense row as the summary core sees it: only `Amount`
and `Date` are read by the aggregate query. -/
structure TransactionRecord where
  amount : Rat
  date : GoDate
deriving DecidableEq, Repr

/-- The backing store: the `financial_summaries` table plus the two
transaction tables the aggregates read. -/
structure DBState where
  summaries : List FinancialSummary
  incomes : List TransactionRecord
  expenses : List TransactionRecord
deriving DecidableEq, Repr

/-- Errors surfaced by the GORM layer: `gorm.ErrRecordNotFound`, or a
database failure carrying its message text. -/
inductive DBErr where
  | recordNotFound
  | fail (msg : String)
deriving DecidableEq, Repr

/-- Substring test (used to embed Go `strings.Contains`). -/
def strContains (s pat : String) : Bool :=
  (List.range (s.toList.length + 1)).any fun i =>
    ((s.toList.drop i).take pat.toList.length) == pat.toList

/-- The test `GetOrCreateFinancialSummary` applies to a store error:
`strings.Contains(err, "duplicate key value violates unique constraint") &&
strings.Contains(err, "idx_type_period")`. -/
def isUniqueViolation : DBErr → Bool
  | .recordNotFound => false
  | .fail msg =>
      strContains msg "duplicate key value violates unique constraint" &&
        strContains msg "idx_type_period"

/-- The message PostgreSQL produces when an insert hits the
`idx_type_period` unique index (quotes elided). -/
def pgDuplicateKeyMsg : String :=
  "duplicate key value violates unique constraint idx_type_period (SQLSTATE 23505)"

/-- Whether an existing row collides with `s` on the key pair of the
unique index `idx_type_period`. -/
def sameSummaryKey (s : FinancialSummary) (r : FinancialSummary) : Bool :=
  decide (r.summaryType = s.summaryType ∧ r.periodStartDate = s.periodStartDate)

/-- Embeds `fetchSummaryFromDB`: `First` on
`summary_type = ? AND period_start_date = ?`, mapping an empty result to
`gorm.ErrRecordNotFound`. -/
def fetchSummaryFromDB (st : DBState) (summaryType : String) (periodStartDate : GoDate) :
    Except DBErr FinancialSummary :=
  match st.summaries.find? (fun s =>
      decide (s.summaryType = summaryType ∧ s.periodStartDate = periodStartDate)) with
  | some s => .ok s
  | none => .error .recordNotFound

/-- Embeds `storeSummaryInDB`: `Create` against a store enforcing the
`idx_type_period` unique constraint; a key collision surfaces as the
duplicate-key database error, success appends the row. -/
def storeSummaryInDB (st : DBState) (summary : FinancialSummary) :
    Except DBErr (FinancialSummary × DBState) :=
  if st.summaries.any (sameSummaryKey summary) then
    .error (.fail pgDuplicateKeyMsg)
  else
    .ok (summary, { st with summaries := st.summaries ++ [summary] })

/-- Embeds `calculateTotalForPeriodGORM`:
`SELECT COALESCE(SUM(amount), 0) WHERE date BETWEEN start AND end` over
the designated transaction table; `BETWEEN` is the inclusive timestamp
range, and the empty sum is 0 (COALESCE). -/
def calculateTotalForPeriodGORM (txns : List TransactionRecord)
    (startDate endDate : GoDate) : Rat :=
  ((txns.filter fun tx =>
      decide (startDate.instant ≤ tx.date.instant ∧ tx.date.instant ≤ endDate.instant)).map
    fun tx => tx.amount).sum

/-- Service-level errors of `GetOrCreateFinancialSummary` and friends, one
constructor per `fmt.Errorf` format string of summary_service.go:

* `periodCalc`        — "error calculating period dates: %w"
* `retrieveOverall`   — "error retrieving existing overall summary: %w"
* `calcIncomeOverall` — "error calculating total income for overall summary: %w"
* `calcExpensesOverall` — "error calculating total expenses for overall summary: %w"
* `storeOverall`      — "error storing new overall summary: %w"
* `db`                — the raw error of the re-fetch after a unique
  violation, returned unwrapped (`return s.fetchSummaryFromDB(...)`)
* `viewCalc`          — "error calculating totals for view ...: %w"
* `notImplemented`    — "viewType ... not yet implemented"
* `invalidView`       — "invalid viewType ..." -/
inductive SvcErr where
  | periodCalc (err : String)
  | retrieveOverall (err : DBErr)
  | calcIncomeOverall (err : DBErr)
  | calcExpensesOverall (err : DBErr)
  | storeOverall (err : DBErr)
  | db (err : DBErr)
  | viewCalc (viewType : String) (err : DBErr)
  | notImplemented (viewType : String)
  | invalidView (viewType : String)
deriving DecidableEq, Repr

/-- Concurrent `storeSummaryInDB` inserts by other requests, landing
between this request's cache read and its own insert; each goes through
the same unique constraint (a losing concurrent insert changes nothing). -/
def applyConcurrentInserts (st : DBState) (rows : List FinancialSummary) : DBState :=
  rows.foldl
    (fun acc r =>
      if acc.summaries.any (sameSummaryKey r) then acc
      else { acc with summaries := acc.summaries ++ [r] })
    st

/-- Embeds `GetOrCreateFinancialSummary` (summary_service.go), returning
the Go result together with the store state after the call.  `interf`
injects the concurrent inserts of §5 of the spec at the only point where
they matter: between the cache miss and this request's own insert
(`interf = []` is the interference-free call). -/
def GetOrCreateAux (st : DBState) (summaryType : String) (targetDate : GoDate)
    (viewType : String) (interf : List FinancialSummary) :
    Except SvcErr FinancialSummary × DBState :=
  let viewType := if viewType = "" then "overall" else viewType
  match CalculatePeriodDates targetDate summaryType with
  | .error e => (.error (.periodCalc e), st)
  | .ok (periodStartDate, periodEndDate) =>
    if viewType = "overall" then
      match fetchSummaryFromDB st summaryType periodStartDate with
      | .ok summary => (.ok summary, st)
      | .error fe =>
        if fe = DBErr.recordNotFound then
          let totalIncome := calculateTotalForPeriodGORM st.incomes periodStartDate periodEndDate
          let totalExpenses := calculateTotalForPeriodGORM st.expenses periodStartDate periodEndDate
          let netBalance := totalIncome - totalExpenses
          let newSummary : FinancialSummary :=
            ⟨summaryType, periodStartDate, periodEndDate, totalIncome, totalExpenses, netBalance⟩
          let st1 := applyConcurrentInserts st interf
          match storeSummaryInDB st1 newSummary with
          | .ok (storedSummary, st2) => (.ok storedSummary, st2)
          | .error storeErr =>
            if isUniqueViolation storeErr then
              match fetchSummaryFromDB st1 summaryType periodStartDate with
              | .ok s2 => (.ok s2, st1)
              | .error e2 => (.error (.db e2), st1)
            else (.error (.storeOverall storeErr), st1)
        else (.error (.retrieveOverall fe), st)
    else if viewType = "income" then
      let totalIncome := calculateTotalForPeriodGORM st.incomes periodStartDate periodEndDate
      let totalExpenses : Rat := 0
      (.ok ⟨summaryType, periodStartDate, periodEndDate, totalIncome, totalExpenses,
        totalIncome - totalExpenses⟩, st)
    else if viewType = "expenses" then
      let totalIncome : Rat := 0
      let totalExpenses := calculateTotalForPeriodGORM st.expenses periodStartDate periodEndDate
      (.ok ⟨summaryType, periodStartDate, periodEndDate, totalIncome, totalExpenses,
        totalIncome - totalExpenses⟩, st)
    else if viewType = "savings" ∨ viewType = "debts" then
      (.error (.notImplemented viewType), st)
    else
      (.error (.invalidView viewType), st)

/-- The single-request (interference-free) `GetOrCreateFinancialSummary`. -/
def GetOrCreateFinancialSummary (st : DBState) (summaryType : String)
    (targetDate : GoDate) (viewType : String) :
    Except SvcErr FinancialSummary × DBState :=
  GetOrCreateAux st summaryType targetDate viewType []

/-- The overall-view control flow of `GetOrCreateFinancialSummary`
(lines 51-92 of summary_service.go) over the raw responses of the
database layer, which a concurrent environment may choose arbitrarily:
the first cache read, the two aggregate scans, the insert, and the re-read
performed after a unique violation. -/
structure OverallDBOutcome where
  fetchExisting : Except DBErr FinancialSummary
  incomeTotal : Except DBErr Rat
  expenseTotal : Except DBErr Rat
  storeResult : Except DBErr FinancialSummary
  refetch : Except DBErr FinancialSummary
deriving Repr

/-- Embeds the `viewType == "overall"` branch of
`GetOrCreateFinancialSummary` with the database responses abstracted as
`OverallDBOutcome`. -/
def getOrCreateOverallFlow (o : OverallDBOutcome) (summaryType : String)
    (periodStartDate periodEndDate : GoDate) : Except SvcErr FinancialSummary :=
  match o.fetchExisting with
  | .ok summary => .ok summary
  | .error fe =>
    if fe = DBErr.recordNotFound then
      match o.incomeTotal with
      | .error e => .error (.calcIncomeOverall e)
      | .ok totalIncome =>
        match o.expenseTotal with
        | .error e => .error (.calcExpensesOverall e)
        | .ok totalExpenses =>
          match o.storeResult with
          | .ok storedSummary => .ok storedSummary
          | .error storeErr =>
            if isUniqueViolation storeErr then
              match o.refetch with
              | .ok s2 => .ok s2
              | .error e2 => .error (.db e2)
            else .error (.storeOverall storeErr)
    else .error (.retrieveOverall fe)

/-- One iteration of the loop of `InvalidateSummariesForDate`: compute the
period start for this granularity (recording a calculation failure as the
first error and moving on), then delete every cache row matching
`(granularity, period start)`. -/
def invalidateStep (itemDate : GoDate) (acc : Option String × DBState)
    (periodType : String) : Option String × DBState :=
  match CalculatePeriodDates itemDate periodType with
  | .error e =>
    (acc.1 <|> some ("failed to calculate period for " ++ periodType ++ ": " ++ e), acc.2)
  | .ok (periodStartDate, _) =>
    (acc.1,
     { acc.2 with
        summaries := acc.2.summaries.filter fun s =>
          !(decide (s.summaryType = periodType ∧ s.periodStartDate = periodStartDate)) })

/-- Embeds `InvalidateSummariesForDate` (summary_service.go): the Go
for-loop over the granularity list, threading the first error and the
store. -/
def InvalidateSummariesForDate (st : DBState) (itemDate : GoDate)
    (summaryPeriodTypes : List String) : Option String × DBState :=
  summaryPeriodTypes.foldl (invalidateStep itemDate) (none, st)

/-- Whether a cache row is among the rows `InvalidateSummariesForDate`
deletes for `(itemDate, summaryPeriodTypes)`: some granularity of the list
has a computable period whose start matches the row's key. -/
def invalidationTarget (itemDate : GoDate) (summaryPeriodTypes : List String)
    (s : FinancialSummary) : Bool :=
  summaryPeriodTypes.any fun g =>
    match CalculatePeriodDates itemDate g with
    | .ok (periodStartDate, _) =>
        decide (s.summaryType = g ∧ s.periodStartDate = periodStartDate)
    | .error _ => false

/-- Whether the period calculation fails for this granularity. -/
def granularityCalcFails (itemDate : GoDate) (g : String) : Bool :=
  match CalculatePeriodDates itemDate g with
  | .ok _ => false
  | .error _ => true

/-- The partial-failure message `InvalidateSummariesForDate` records for a
granularity whose period calculation fails. -/
def invalidateErrMsg (itemDate : GoDate) (g : String) : String :=
  match CalculatePeriodDates itemDate g with
  | .error e => "failed to calculate period for " ++ g ++ ": " ++ e
  | .ok _ => ""

/-- At most one cache row per `(summary_type, period_start_date)` pair:
the invariant enforced by the unique index `idx_type_period`. -/
def UniqueSummaryKeys (l : List FinancialSummary) : Prop :=
  l.Pairwise fun a b =>
    ¬(a.summaryType = b.summaryType ∧ a.periodStartDate = b.periodStartDate)

theorem isLeapYear_iff (y : Int) :
    isLeapYear y = true ↔ (y % 4 = 0 ∧ (y % 100 ≠ 0 ∨ y % 400 = 0)) := by
  simp [isLeapYear]

theorem daysInMonth_bounds (y m : Int) (h1 : 1 ≤ m) (h2 : m ≤ 12) :
    28 ≤ daysInMonth y m ∧ daysInMonth y m ≤ 31 := by
  interval_cases m <;> simp [daysInMonth] <;> split <;> omega

theorem daysToYearStart_succ (y : Int) :
    daysToYearStart (y + 1) =
      daysToYearStart y + (if isLeapYear y = true then 366 else 365) := by
  by_cases hp : (y % 4 = 0 ∧ (y % 100 ≠ 0 ∨ y % 400 = 0))
  · rw [if_pos ((isLeapYear_iff y).mpr hp)]
    unfold daysToYearStart
    omega
  · rw [if_neg (fun hc => hp ((isLeapYear_iff y).mp hc))]
    unfold daysToYearStart
    omega

theorem nsPerDay_pos : 0 < nsPerDay := by decide

theorem valid_nextDay (t : GoDate) (h : t.Valid) : t.nextDay.Valid := by
  obtain ⟨y, m, d, tod⟩ := t
  simp only [GoDate.Valid] at h
  obtain ⟨h1, h2, h3, h4, h5, h6⟩ := h
  simp only [GoDate.nextDay]
  split_ifs with hd hm <;> simp only [GoDate.Valid]
  · exact ⟨h1, h2, by omega, by omega, h5, h6⟩
  · have := daysInMonth_bounds y (m + 1) (by omega) (by omega)
    exact ⟨by omega, by omega, by omega, by omega, h5, h6⟩
  · have : daysInMonth (y + 1) 1 = 31 := by simp [daysInMonth]
    exact ⟨by omega, by omega, by omega, by omega, h5, h6⟩

theorem valid_prevDay (t : GoDate) (h : t.Valid) : t.prevDay.Valid := by
  obtain ⟨y, m, d, tod⟩ := t
  simp only [GoDate.Valid] at h
  obtain ⟨h1, h2, h3, h4, h5, h6⟩ := h
  simp only [GoDate.prevDay]
  split_ifs with hd hm <;> simp only [GoDate.Valid]
  · exact ⟨h1, h2, by omega, by omega, h5, h6⟩
  · have := daysInMonth_bounds y (m - 1) (by omega) (by omega)
    exact ⟨by omega, by omega, by omega, by omega, h5, h6⟩
  · have : daysInMonth (y - 1) 12 = 31 := by simp [daysInMonth]
    exact ⟨by omega, by omega, by omega, by omega, h5, h6⟩

theorem toDays_nextDay (t : GoDate) (h : t.Valid) :
    t.nextDay.toDays = t.toDays + 1 := by
  obtain ⟨y, m, d, tod⟩ := t
  simp only [GoDate.Valid] at h
  obtain ⟨h1, h2, h3, h4, h5, h6⟩ := h
  have hstep := daysToYearStart_succ y
  simp only [GoDate.nextDay]
  split_ifs with hd hm
  · simp only [GoDate.toDays]
    omega
  · have hdQ : d = daysInMonth y m := le_antisymm h4 (by omega)
    subst hdQ
    simp only [GoDate.toDays]
    cases hb : isLeapYear y <;>
      interval_cases m <;>
        simp [hb, daysBeforeMonth, daysInMonth] <;> omega
  · have hm12 : m = 12 := by omega
    subst hm12
    have hd31 : d = 31 := by
      have hq : daysInMonth y 12 = 31 := by simp [daysInMonth]
      omega
    subst hd31
    simp only [GoDate.toDays]
    cases hb : isLeapYear y <;>
      simp [hb, daysBeforeMonth] at hstep ⊢ <;> omega

theorem tod_nextDay (t : GoDate) : t.nextDay.tod = t.tod := by
  obtain ⟨y, m, d, tod⟩ := t
  simp only [GoDate.nextDay]
  split_ifs <;> rfl

theorem tod_prevDay (t : GoDate) : t.prevDay.tod = t.tod := by
  obtain ⟨y, m, d, tod⟩ := t
  simp only [GoDate.prevDay]
  split_ifs <;> rfl

theorem prevDay_nextDay (t : GoDate) (h : t.Valid) : t.prevDay.nextDay = t := by
  obtain ⟨y, m, d, tod⟩ := t
  simp only [GoDate.Valid] at h
  obtain ⟨h1, h2, h3, h4, h5, h6⟩ := h
  simp only [GoDate.prevDay]
  split_ifs with hd hm
  · simp only [GoDate.nextDay]
    split_ifs with hq hr <;> simp only [GoDate.mk.injEq, true_and, and_true] <;> omega
  · have hb := daysInMonth_bounds y (m - 1) (by omega) (by omega)
    simp only [GoDate.nextDay]
    split_ifs with hq hr <;> simp only [GoDate.mk.injEq, true_and, and_true] <;> omega
  · have h31 : daysInMonth (y - 1) 12 = 31 := by simp [daysInMonth]
    simp only [GoDate.nextDay]
    split_ifs with hq hr <;> simp only [GoDate.mk.injEq, true_and, and_true] <;> omega

theorem toDays_prevDay (t : GoDate) (h : t.Valid) :
    t.prevDay.toDays = t.toDays - 1 := by
  have hv := valid_prevDay t h
  have he := prevDay_nextDay t h
  have hs := toDays_nextDay t.prevDay hv
  rw [he] at hs
  omega

theorem valid_nextDays (t : GoDate) (h : t.Valid) (k : Nat) : (t.nextDays k).Valid := by
  induction k with
  | zero => exact h
  | succ n ih => exact valid_nextDay _ ih

theorem toDays_nextDays (t : GoDate) (h : t.Valid) (k : Nat) :
    (t.nextDays k).toDays = t.toDays + k := by
  induction k with
  | zero => simp [GoDate.nextDays]
  | succ n ih =>
      have := toDays_nextDay (t.nextDays n) (valid_nextDays t h n)
      simp only [GoDate.nextDays]
      omega

theorem tod_nextDays (t : GoDate) (k : Nat) : (t.nextDays k).tod = t.tod := by
  induction k with
  | zero => rfl
  | succ n ih => rw [GoDate.nextDays, tod_nextDay, ih]

theorem valid_prevDays (t : GoDate) (h : t.Valid) (k : Nat) : (t.prevDays k).Valid := by
  induction k with
  | zero => exact h
  | succ n ih => exact valid_prevDay _ ih

theorem toDays_prevDays (t : GoDate) (h : t.Valid) (k : Nat) :
    (t.prevDays k).toDays = t.toDays - k := by
  induction k with
  | zero => simp [GoDate.prevDays]
  | succ n ih =>
      have := toDays_prevDay (t.prevDays n) (valid_prevDays t h n)
      simp only [GoDate.prevDays]
      omega

theorem tod_prevDays (t : GoDate) (k : Nat) : (t.prevDays k).tod = t.tod := by
  induction k with
  | zero => rfl
  | succ n ih => rw [GoDate.prevDays, tod_prevDay, ih]

theorem valid_addDays (t : GoDate) (h : t.Valid) (n : Int) : (t.addDays n).Valid := by
  unfold GoDate.addDays
  split_ifs <;> [exact valid_nextDays t h _; exact valid_prevDays t h _]

theorem toDays_addDays (t : GoDate) (h : t.Valid) (n : Int) :
    (t.addDays n).toDays = t.toDays + n := by
  unfold GoDate.addDays
  split_ifs with hn
  · rw [toDays_nextDays t h]
    omega
  · rw [toDays_prevDays t h]
    omega

theorem tod_addDays (t : GoDate) (n : Int) : (t.addDays n).tod = t.tod := by
  unfold GoDate.addDays
  split_ifs <;> [exact tod_nextDays t _; exact tod_prevDays t _]

theorem goDate_eq_addDays (y m d tod : Int) (h1 : 1 ≤ m) (h2 : m ≤ 12) :
    goDate y m d tod = GoDate.addDays ⟨y, m, 1, tod⟩ (d - 1) := by
  unfold goDate
  have hq : (m - 1) / 12 = 0 := by omega
  have hr : (m - 1) % 12 + 1 = m := by omega
  rw [hq, hr]
  norm_num

theorem nextDays_in_month (y m d tod : Int) (h : GoDate.Valid ⟨y, m, d, tod⟩) (k : Nat)
    (hk : d + k ≤ daysInMonth y m) :
    GoDate.nextDays ⟨y, m, d, tod⟩ k = ⟨y, m, d + k, tod⟩ := by
  simp only [GoDate.Valid] at h
  obtain ⟨h1, h2, h3, h4, h5, h6⟩ := h
  induction k with
  | zero => simp [GoDate.nextDays]
  | succ n ih =>
      simp only [GoDate.nextDays]
      rw [ih (by omega)]
      simp only [GoDate.nextDay]
      rw [if_pos (show d + (n : Int) < daysInMonth y m by omega)]
      simp only [GoDate.mk.injEq, true_and, and_true]
      omega

theorem goDate_valid_eq (y m d tod : Int) (h : GoDate.Valid ⟨y, m, d, tod⟩) :
    goDate y m d tod = ⟨y, m, d, tod⟩ := by
  simp only [GoDate.Valid] at h
  obtain ⟨h1, h2, h3, h4, h5, h6⟩ := h
  rw [goDate_eq_addDays y m d tod h1 h2]
  unfold GoDate.addDays
  rw [if_pos (show (0 : Int) ≤ d - 1 by omega)]
  have hb := daysInMonth_bounds y m h1 h2
  have hv1 : GoDate.Valid ⟨y, m, 1, tod⟩ := by
    simp only [GoDate.Valid]
    exact ⟨h1, h2, by omega, by omega, h5, h6⟩
  rw [nextDays_in_month y m 1 tod hv1 (d - 1).toNat (by omega)]
  simp only [GoDate.mk.injEq, true_and, and_true]
  omega

theorem toDays_mk (y m d tod : Int) :
    GoDate.toDays ⟨y, m, d, tod⟩ =
      daysToYearStart y + daysBeforeMonth m +
        (if isLeapYear y ∧ 3 ≤ m then 1 else 0) + d - 1 := rfl

theorem prevDay_mk (y m d tod : Int) :
    GoDate.prevDay ⟨y, m, d, tod⟩ =
      if 1 < d then ⟨y, m, d - 1, tod⟩
      else if 1 < m then ⟨y, m - 1, daysInMonth y (m - 1), tod⟩
      else ⟨y - 1, 12, 31, tod⟩ := rfl

theorem valid_withTod0 (t : GoDate) (h : t.Valid) :
    GoDate.Valid ⟨t.year, t.month, t.day, 0⟩ := by
  obtain ⟨y, m, d, tod⟩ := t
  simp only [GoDate.Valid] at h ⊢
  have := nsPerDay_pos
  exact ⟨h.1, h.2.1, h.2.2.1, h.2.2.2.1, le_refl 0, this⟩

theorem toDays_set_tod (y m d a b : Int) :
    GoDate.toDays ⟨y, m, d, a⟩ = GoDate.toDays ⟨y, m, d, b⟩ := rfl

theorem same_month_toDays (y m d dd tod tod2 : Int) :
    GoDate.toDays ⟨y, m, d, tod⟩ - GoDate.toDays ⟨y, m, dd, tod2⟩ = d - dd := by
  rw [toDays_mk, toDays_mk]
  omega

theorem addDate_days (t : GoDate) (h : t.Valid) (k : Int) :
    (t.addDate 0 0 k).Valid ∧ (t.addDate 0 0 k).toDays = t.toDays + k ∧
      (t.addDate 0 0 k).tod = t.tod := by
  obtain ⟨y, m, d, tod⟩ := t
  have hV := h
  simp only [GoDate.Valid] at h
  obtain ⟨h1, h2, h3, h4, h5, h6⟩ := h
  have hb := daysInMonth_bounds y m h1 h2
  simp only [GoDate.addDate, add_zero, zero_add]
  rw [goDate_eq_addDays y m (d + k) tod h1 h2]
  have hv1 : GoDate.Valid ⟨y, m, 1, tod⟩ := by
    simp only [GoDate.Valid]
    exact ⟨h1, h2, by omega, by omega, h5, h6⟩
  refine ⟨valid_addDays _ hv1 _, ?_, tod_addDays _ _⟩
  rw [toDays_addDays _ hv1]
  have hdiff := same_month_toDays y m d 1 tod tod
  omega

theorem monthly_start_eq (y m : Int) (h1 : 1 ≤ m) (h2 : m ≤ 12) :
    goDate y m 1 0 = ⟨y, m, 1, 0⟩ := by
  apply goDate_valid_eq
  simp only [GoDate.Valid]
  have hb := daysInMonth_bounds y m h1 h2
  have := nsPerDay_pos
  exact ⟨h1, h2, le_refl 1, by omega, le_refl 0, this⟩

theorem monthly_end_eq (y m : Int) (h1 : 1 ≤ m) (h2 : m ≤ 12) :
    (GoDate.addDate ⟨y, m, 1, 0⟩ 0 1 (-1)) = ⟨y, m, daysInMonth y m, 0⟩ := by
  simp only [GoDate.addDate, add_zero]
  by_cases hm : m ≤ 11
  · rw [show (1 : Int) + -1 = 0 by omega]
    rw [goDate_eq_addDays y (m + 1) 0 0 (by omega) (by omega)]
    show GoDate.addDays ⟨y, m + 1, 1, 0⟩ (-1) = _
    unfold GoDate.addDays
    rw [if_neg (by omega)]
    show GoDate.prevDay (GoDate.prevDays ⟨y, m + 1, 1, 0⟩ 0) = _
    unfold GoDate.prevDays
    rw [prevDay_mk]
    rw [if_neg (by omega), if_pos (by omega)]
    simp only [GoDate.mk.injEq, true_and, and_true]
    constructor
    · omega
    · rw [show m + 1 - 1 = m by omega]
  · have hm12 : m = 12 := by omega
    subst hm12
    show goDate y 13 (1 + -1) 0 = _
    unfold goDate
    norm_num
    show GoDate.prevDay (GoDate.prevDays ⟨y + 1, 1, 1, 0⟩ 0) = _
    unfold GoDate.prevDays
    rw [prevDay_mk]
    rw [if_neg (by omega), if_neg (by omega)]
    have : daysInMonth y 12 = 31 := by simp [daysInMonth]
    simp only [GoDate.mk.injEq, true_and, and_true]
    omega

theorem valid_mk_iff (y m d tod : Int) :
    GoDate.Valid ⟨y, m, d, tod⟩ ↔
      (1 ≤ m ∧ m ≤ 12 ∧ 1 ≤ d ∧ d ≤ daysInMonth y m ∧ 0 ≤ tod ∧ tod < nsPerDay) :=
  Iff.rfl

theorem normalizeToMidnight_eq (t : GoDate) (h : t.Valid) :
    normalizeToMidnight t = ⟨t.year, t.month, t.day, 0⟩ :=
  goDate_valid_eq t.year t.month t.day 0 (valid_withTod0 t h)

theorem instant_mono (a b : GoDate) (h1 : a.toDays ≤ b.toDays) (h2 : a.tod ≤ b.tod) :
    a.instant ≤ b.instant := by
  unfold GoDate.instant
  have hN : nsPerDay = 86400000000000 := rfl
  rw [hN]
  omega

theorem daysInMonth_feb (y : Int) :
    daysInMonth y 2 = if isLeapYear y then 29 else 28 := rfl

theorem toDays_year_bounds (y m d tod : Int) (h : GoDate.Valid ⟨y, m, d, tod⟩) :
    GoDate.toDays ⟨y, 1, 1, 0⟩ ≤ GoDate.toDays ⟨y, m, d, tod⟩ ∧
      GoDate.toDays ⟨y, m, d, tod⟩ ≤ GoDate.toDays ⟨y, 12, 31, 0⟩ := by
  rw [valid_mk_iff] at h
  obtain ⟨h1, h2, h3, h4, h5, h6⟩ := h
  rw [toDays_mk, toDays_mk, toDays_mk]
  cases hb : isLeapYear y <;> interval_cases m <;>
    simp [hb, daysBeforeMonth, daysInMonth] at h4 ⊢ <;> omega

theorem CalculatePeriodDates_invalid (t : GoDate) (g : String)
    (h1 : g ≠ "weekly") (h2 : g ≠ "monthly") (h3 : g ≠ "yearly") :
    CalculatePeriodDates t g = .error ("invalid summary type: " ++ g) := by
  simp only [CalculatePeriodDates, if_neg h1, if_neg h2, if_neg h3]

theorem CalculatePeriodDates_monthly (t : GoDate) (h : t.Valid) :
    CalculatePeriodDates t "monthly" =
      .ok (⟨t.year, t.month, 1, 0⟩, ⟨t.year, t.month, daysInMonth t.year t.month, 0⟩) := by
  have hv := h
  obtain ⟨hm1, hm2, hd1, hd2, ht1, ht2⟩ := hv
  have hb := daysInMonth_bounds t.year t.month hm1 hm2
  have hN := nsPerDay_pos
  have hs := monthly_start_eq t.year t.month hm1 hm2
  have hsV : GoDate.Valid ⟨t.year, t.month, 1, 0⟩ :=
    (valid_mk_iff _ _ _ _).mpr ⟨hm1, hm2, by omega, by omega, by omega, hN⟩
  have he := monthly_end_eq t.year t.month hm1 hm2
  have heV : GoDate.Valid ⟨t.year, t.month, daysInMonth t.year t.month, 0⟩ :=
    (valid_mk_iff _ _ _ _).mpr ⟨hm1, hm2, by omega, by omega, by omega, hN⟩
  have h1 : CalculatePeriodDates t "monthly" =
      .ok (normalizeToMidnight (goDate t.year t.month 1 0),
           normalizeToMidnight ((goDate t.year t.month 1 0).addDate 0 1 (-1))) := rfl
  rw [h1, hs, he, normalizeToMidnight_eq _ hsV, normalizeToMidnight_eq _ heV]

theorem CalculatePeriodDates_yearly (t : GoDate) (h : t.Valid) :
    CalculatePeriodDates t "yearly" =
      .ok (⟨t.year, 1, 1, 0⟩, ⟨t.year, 12, 31, 0⟩) := by
  have hN := nsPerDay_pos
  have hs := monthly_start_eq t.year 1 (by omega) (by omega)
  have h311 : daysInMonth t.year 1 = 31 := rfl
  have hsV : GoDate.Valid ⟨t.year, 1, 1, 0⟩ :=
    (valid_mk_iff _ _ _ _).mpr ⟨by omega, by omega, by omega, by omega, by omega, hN⟩
  have h31 : daysInMonth t.year 12 = 31 := rfl
  have heV : GoDate.Valid ⟨t.year, 12, 31, 0⟩ :=
    (valid_mk_iff _ _ _ _).mpr ⟨by omega, by omega, by omega, by omega, by omega, hN⟩
  have he : goDate t.year 12 31 0 = ⟨t.year, 12, 31, 0⟩ := goDate_valid_eq _ _ _ _ heV
  have h1 : CalculatePeriodDates t "yearly" =
      .ok (normalizeToMidnight (goDate t.year 1 1 0),
           normalizeToMidnight (goDate t.year 12 31 0)) := rfl
  rw [h1, hs, he, normalizeToMidnight_eq _ hsV, normalizeToMidnight_eq _ heV]

theorem CalculatePeriodDates_weekly (t : GoDate) (h : t.Valid) :
    ∃ s e : GoDate, CalculatePeriodDates t "weekly" = .ok (s, e) ∧
      s.Valid ∧ e.Valid ∧ s.tod = 0 ∧ e.tod = 0 ∧
      s.toDays = t.toDays + (if t.weekday = 0 then -6 else 1 - t.weekday) ∧
      e.toDays = s.toDays + 6 := by
  obtain ⟨hs0V, hs0D, hs0T⟩ :=
    addDate_days t h (if t.weekday = 0 then -6 else 1 - t.weekday)
  obtain ⟨he0V, he0D, he0T⟩ :=
    addDate_days (t.addDate 0 0 (if t.weekday = 0 then -6 else 1 - t.weekday)) hs0V 6
  have h1 : CalculatePeriodDates t "weekly" =
      .ok (normalizeToMidnight (t.addDate 0 0 (if t.weekday = 0 then -6 else 1 - t.weekday)),
           normalizeToMidnight
             ((t.addDate 0 0 (if t.weekday = 0 then -6 else 1 - t.weekday)).addDate 0 0 6)) := rfl
  rw [h1, normalizeToMidnight_eq _ hs0V, normalizeToMidnight_eq _ he0V]
  exact ⟨_, _, rfl, valid_withTod0 _ hs0V, valid_withTod0 _ he0V, rfl, rfl, hs0D, he0D⟩

example : CalculatePeriodDates ⟨2023, 11, 15, 0⟩ "weekly" =
    .ok (⟨2023, 11, 13, 0⟩, ⟨2023, 11, 19, 0⟩) := by decide

example : CalculatePeriodDates ⟨2023, 11, 19, 0⟩ "weekly" =
    .ok (⟨2023, 11, 13, 0⟩, ⟨2023, 11, 19, 0⟩) := by decide

example : CalculatePeriodDates ⟨2024, 2, 10, 0⟩ "monthly" =
    .ok (⟨2024, 2, 1, 0⟩, ⟨2024, 2, 29, 0⟩) := by decide

example : CalculatePeriodDates ⟨2023, 2, 10, 5⟩ "monthly" =
    .ok (⟨2023, 2, 1, 0⟩, ⟨2023, 2, 28, 0⟩) := by decide

example : CalculatePeriodDates ⟨2023, 7, 10, 5⟩ "yearly" =
    .ok (⟨2023, 1, 1, 0⟩, ⟨2023, 12, 31, 0⟩) := by decide

example : (GoDate.mk 2023 11 15 0).weekday = 3 := by decide

example : (GoDate.mk 2023 11 19 0).weekday = 0 := by decide

theorem fetch_notFound_iff (st : DBState) (g : String) (ps : GoDate) :
    fetchSummaryFromDB st g ps = .error .recordNotFound ↔
      ∀ r ∈ st.summaries, ¬(r.summaryType = g ∧ r.periodStartDate = ps) := by
  unfold fetchSummaryFromDB
  cases hf : st.summaries.find? fun s =>
      decide (s.summaryType = g ∧ s.periodStartDate = ps) with
  | none =>
      rw [List.find?_eq_none] at hf
      constructor
      · intro _ r hr
        have hq := hf r hr
        simpa using hq
      · intro _
        rfl
  | some r =>
      have hmem := List.mem_of_find?_eq_some hf
      have hkey := List.find?_some hf
      simp only [decide_eq_true_eq] at hkey
      constructor
      · intro hcontra
        exact Except.noConfusion hcontra
      · intro hall
        exact absurd hkey (hall r hmem)

theorem fetch_ok_spec (st : DBState) (g : String) (ps : GoDate) (s : FinancialSummary)
    (h : fetchSummaryFromDB st g ps = .ok s) :
    s ∈ st.summaries ∧ s.summaryType = g ∧ s.periodStartDate = ps := by
  unfold fetchSummaryFromDB at h
  cases hf : st.summaries.find? fun r =>
      decide (r.summaryType = g ∧ r.periodStartDate = ps) with
  | none =>
      rw [hf] at h
      exact Except.noConfusion h
  | some r =>
      rw [hf] at h
      have hr : r = s := by
        injection h
      subst hr
      have hmem := List.mem_of_find?_eq_some hf
      have hkey := List.find?_some hf
      simp only [decide_eq_true_eq] at hkey
      exact ⟨hmem, hkey⟩

theorem any_sameKey_false (l : List FinancialSummary) (ns : FinancialSummary)
    (hall : ∀ r ∈ l, ¬(r.summaryType = ns.summaryType ∧ r.periodStartDate = ns.periodStartDate)) :
    l.any (sameSummaryKey ns) = false := by
  cases hb : l.any (sameSummaryKey ns) with
  | false => rfl
  | true =>
      rw [List.any_eq_true] at hb
      obtain ⟨r, hr, hp⟩ := hb
      simp only [sameSummaryKey, decide_eq_true_eq] at hp
      exact absurd hp (hall r hr)

/-- C1: with view "overall", a cached row for `(granularity, period start)`
is returned verbatim, no row is inserted and the store is unchanged; the
result does not depend on the income/expense tables, so a second call
returns the identical values even if the underlying transactions changed
in between. -/
theorem C1_cached_overall_wins (st : DBState) (g : String) (d : GoDate)
    (s : FinancialSummary) (ps pe : GoDate)
    (hcpd : CalculatePeriodDates d g = .ok (ps, pe))
    (hfetch : fetchSummaryFromDB st g ps = .ok s) :
    GetOrCreateFinancialSummary st g d "overall" = (.ok s, st) ∧
      ∀ incomes expenses : List TransactionRecord,
        GetOrCreateFinancialSummary ⟨st.summaries, incomes, expenses⟩ g d "overall" =
          (.ok s, ⟨st.summaries, incomes, expenses⟩) := by
  have hfetch2 : ∀ i e : List TransactionRecord,
      fetchSummaryFromDB ⟨st.summaries, i, e⟩ g ps = .ok s := fun i e => hfetch
  constructor
  · simp only [GetOrCreateFinancialSummary, GetOrCreateAux, hcpd, hfetch]
    rfl
  · intro i e
    simp only [GetOrCreateFinancialSummary, GetOrCreateAux, hcpd, hfetch2 i e]
    rfl

/-- C1 witness: a concrete cached monthly row is returned unchanged. -/
theorem C1_cached_overall_wins_witness :
    CalculatePeriodDates ⟨2023, 4, 10, 0⟩ "monthly" =
        .ok (⟨2023, 4, 1, 0⟩, ⟨2023, 4, 30, 0⟩) ∧
      fetchSummaryFromDB
          ⟨[⟨"monthly", ⟨2023, 4, 1, 0⟩, ⟨2023, 4, 30, 0⟩, 10, 4, 6⟩], [], []⟩
          "monthly" ⟨2023, 4, 1, 0⟩ =
        .ok ⟨"monthly", ⟨2023, 4, 1, 0⟩, ⟨2023, 4, 30, 0⟩, 10, 4, 6⟩ ∧
      GetOrCreateFinancialSummary
          ⟨[⟨"monthly", ⟨2023, 4, 1, 0⟩, ⟨2023, 4, 30, 0⟩, 10, 4, 6⟩], [], []⟩
          "monthly" ⟨2023, 4, 10, 0⟩ "overall" =
        (.ok ⟨"monthly", ⟨2023, 4, 1, 0⟩, ⟨2023, 4, 30, 0⟩, 10, 4, 6⟩,
         ⟨[⟨"monthly", ⟨2023, 4, 1, 0⟩, ⟨2023, 4, 30, 0⟩, 10, 4, 6⟩], [], []⟩) :=
  ⟨by decide, rfl,
    (C1_cached_overall_wins
      ⟨[⟨"monthly", ⟨2023, 4, 1, 0⟩, ⟨2023, 4, 30, 0⟩, 10, 4, 6⟩], [], []⟩
      "monthly" ⟨2023, 4, 10, 0⟩
      ⟨"monthly", ⟨2023, 4, 1, 0⟩, ⟨2023, 4, 30, 0⟩, 10, 4, 6⟩
      ⟨2023, 4, 1, 0⟩ ⟨2023, 4, 30, 0⟩ (by decide) rfl).1⟩

/-- C2: with view "overall" and no cached row, the summary is computed as
the inclusive-range sums over the income and expense tables with
`net_balance = total_income - total_expenses`, exactly one new cache row
is appended, and that row is returned; an aggregate over an empty range
is 0, not an error. -/
theorem C2_overall_computes_and_inserts (st : DBState) (g : String) (d : GoDate)
    (ps pe : GoDate)
    (hcpd : CalculatePeriodDates d g = .ok (ps, pe))
    (hmiss : fetchSummaryFromDB st g ps = .error .recordNotFound) :
    GetOrCreateFinancialSummary st g d "overall" =
        (.ok ⟨g, ps, pe,
              calculateTotalForPeriodGORM st.incomes ps pe,
              calculateTotalForPeriodGORM st.expenses ps pe,
              calculateTotalForPeriodGORM st.incomes ps pe -
                calculateTotalForPeriodGORM st.expenses ps pe⟩,
         { st with
            summaries := st.summaries ++
              [⟨g, ps, pe,
                calculateTotalForPeriodGORM st.incomes ps pe,
                calculateTotalForPeriodGORM st.expenses ps pe,
                calculateTotalForPeriodGORM st.incomes ps pe -
                  calculateTotalForPeriodGORM st.expenses ps pe⟩] }) ∧
      calculateTotalForPeriodGORM st.incomes ps pe =
        ((st.incomes.filter fun tx =>
            decide (ps.instant ≤ tx.date.instant ∧ tx.date.instant ≤ pe.instant)).map
          fun tx => tx.amount).sum ∧
      calculateTotalForPeriodGORM st.expenses ps pe =
        ((st.expenses.filter fun tx =>
            decide (ps.instant ≤ tx.date.instant ∧ tx.date.instant ≤ pe.instant)).map
          fun tx => tx.amount).sum ∧
      ((∀ tx ∈ st.incomes,
          ¬(ps.instant ≤ tx.date.instant ∧ tx.date.instant ≤ pe.instant)) →
        calculateTotalForPeriodGORM st.incomes ps pe = 0) ∧
      ((∀ tx ∈ st.expenses,
          ¬(ps.instant ≤ tx.date.instant ∧ tx.date.instant ≤ pe.instant)) →
        calculateTotalForPeriodGORM st.expenses ps pe = 0) := by
  have hall := (fetch_notFound_iff st g ps).mp hmiss
  have hany : st.summaries.any
      (sameSummaryKey ⟨g, ps, pe,
        calculateTotalForPeriodGORM st.incomes ps pe,
        calculateTotalForPeriodGORM st.expenses ps pe,
        calculateTotalForPeriodGORM st.incomes ps pe -
          calculateTotalForPeriodGORM st.expenses ps pe⟩) = false :=
    any_sameKey_false _ _ (fun r hr => hall r hr)
  have hstore : storeSummaryInDB (applyConcurrentInserts st [])
      ⟨g, ps, pe,
        calculateTotalForPeriodGORM st.incomes ps pe,
        calculateTotalForPeriodGORM st.expenses ps pe,
        calculateTotalForPeriodGORM st.incomes ps pe -
          calculateTotalForPeriodGORM st.expenses ps pe⟩ =
      .ok (⟨g, ps, pe,
            calculateTotalForPeriodGORM st.incomes ps pe,
            calculateTotalForPeriodGORM st.expenses ps pe,
            calculateTotalForPeriodGORM st.incomes ps pe -
              calculateTotalForPeriodGORM st.expenses ps pe⟩,
           { st with
              summaries := st.summaries ++
                [⟨g, ps, pe,
                  calculateTotalForPeriodGORM st.incomes ps pe,
                  calculateTotalForPeriodGORM st.expenses ps pe,
                  calculateTotalForPeriodGORM st.incomes ps pe -
                    calculateTotalForPeriodGORM st.expenses ps pe⟩] }) := by
    show storeSummaryInDB st _ = _
    unfold storeSummaryInDB
    simp only [hany, Bool.false_eq_true, if_false]
  refine ⟨?_, rfl, rfl, ?_, ?_⟩
  · simp only [GetOrCreateFinancialSummary, GetOrCreateAux, hcpd, hmiss, hstore]
    rfl
  · intro h0
    unfold calculateTotalForPeriodGORM
    rw [List.filter_eq_nil_iff.mpr (by intro a ha; simpa using h0 a ha)]
    rfl
  · intro h0
    unfold calculateTotalForPeriodGORM
    rw [List.filter_eq_nil_iff.mpr (by intro a ha; simpa using h0 a ha)]
    rfl

/-- C2 witness: the spec's seeded April 2023 example, incomes 1000 + 500
and expenses 300 + 200 within the month, yields totals 1500/500 and net
1000, inserted as a fresh row. -/
theorem C2_overall_computes_and_inserts_witness :
    CalculatePeriodDates ⟨2023, 4, 10, 0⟩ "monthly" =
        .ok (⟨2023, 4, 1, 0⟩, ⟨2023, 4, 30, 0⟩) ∧
      fetchSummaryFromDB
          ⟨[], [⟨1000, ⟨2023, 4, 15, 0⟩⟩, ⟨500, ⟨2023, 4, 25, 0⟩⟩],
           [⟨300, ⟨2023, 4, 20, 0⟩⟩, ⟨200, ⟨2023, 4, 30, 0⟩⟩]⟩
          "monthly" ⟨2023, 4, 1, 0⟩ =
        .error .recordNotFound ∧
      GetOrCreateFinancialSummary
          ⟨[], [⟨1000, ⟨2023, 4, 15, 0⟩⟩, ⟨500, ⟨2023, 4, 25, 0⟩⟩],
           [⟨300, ⟨2023, 4, 20, 0⟩⟩, ⟨200, ⟨2023, 4, 30, 0⟩⟩]⟩
          "monthly" ⟨2023, 4, 10, 0⟩ "overall" =
        (.ok ⟨"monthly", ⟨2023, 4, 1, 0⟩, ⟨2023, 4, 30, 0⟩,
              calculateTotalForPeriodGORM
                [⟨1000, ⟨2023, 4, 15, 0⟩⟩, ⟨500, ⟨2023, 4, 25, 0⟩⟩]
                ⟨2023, 4, 1, 0⟩ ⟨2023, 4, 30, 0⟩,
              calculateTotalForPeriodGORM
                [⟨300, ⟨2023, 4, 20, 0⟩⟩, ⟨200, ⟨2023, 4, 30, 0⟩⟩]
                ⟨2023, 4, 1, 0⟩ ⟨2023, 4, 30, 0⟩,
              calculateTotalForPeriodGORM
                  [⟨1000, ⟨2023, 4, 15, 0⟩⟩, ⟨500, ⟨2023, 4, 25, 0⟩⟩]
                  ⟨2023, 4, 1, 0⟩ ⟨2023, 4, 30, 0⟩ -
                calculateTotalForPeriodGORM
                  [⟨300, ⟨2023, 4, 20, 0⟩⟩, ⟨200, ⟨2023, 4, 30, 0⟩⟩]
                  ⟨2023, 4, 1, 0⟩ ⟨2023, 4, 30, 0⟩⟩,
         ⟨[⟨"monthly", ⟨2023, 4, 1, 0⟩, ⟨2023, 4, 30, 0⟩,
            calculateTotalForPeriodGORM
              [⟨1000, ⟨2023, 4, 15, 0⟩⟩, ⟨500, ⟨2023, 4, 25, 0⟩⟩]
              ⟨2023, 4, 1, 0⟩ ⟨2023, 4, 30, 0⟩,
            calculateTotalForPeriodGORM
              [⟨300, ⟨2023, 4, 20, 0⟩⟩, ⟨200, ⟨2023, 4, 30, 0⟩⟩]
              ⟨2023, 4, 1, 0⟩ ⟨2023, 4, 30, 0⟩,
            calculateTotalForPeriodGORM
                [⟨1000, ⟨2023, 4, 15, 0⟩⟩, ⟨500, ⟨2023, 4, 25, 0⟩⟩]
                ⟨2023, 4, 1, 0⟩ ⟨2023, 4, 30, 0⟩ -
              calculateTotalForPeriodGORM
                [⟨300, ⟨2023, 4, 20, 0⟩⟩, ⟨200, ⟨2023, 4, 30, 0⟩⟩]
                ⟨2023, 4, 1, 0⟩ ⟨2023, 4, 30, 0⟩⟩],
          [⟨1000, ⟨2023, 4, 15, 0⟩⟩, ⟨500, ⟨2023, 4, 25, 0⟩⟩],
          [⟨300, ⟨2023, 4, 20, 0⟩⟩, ⟨200, ⟨2023, 4, 30, 0⟩⟩]⟩) ∧
      calculateTotalForPeriodGORM
          [⟨1000, ⟨2023, 4, 15, 0⟩⟩, ⟨500, ⟨2023, 4, 25, 0⟩⟩]
          ⟨2023, 4, 1, 0⟩ ⟨2023, 4, 30, 0⟩ = 1500 ∧
      calculateTotalForPeriodGORM
          [⟨300, ⟨2023, 4, 20, 0⟩⟩, ⟨200, ⟨2023, 4, 30, 0⟩⟩]
          ⟨2023, 4, 1, 0⟩ ⟨2023, 4, 30, 0⟩ = 500 :=
  ⟨by decide, rfl,
    (C2_overall_computes_and_inserts
      ⟨[], [⟨1000, ⟨2023, 4, 15, 0⟩⟩, ⟨500, ⟨2023, 4, 25, 0⟩⟩],
       [⟨300, ⟨2023, 4, 20, 0⟩⟩, ⟨200, ⟨2023, 4, 30, 0⟩⟩]⟩
      "monthly" ⟨2023, 4, 10, 0⟩ ⟨2023, 4, 1, 0⟩ ⟨2023, 4, 30, 0⟩
      (by decide) rfl).1,
    by norm_num [calculateTotalForPeriodGORM, GoDate.instant, GoDate.toDays,
      daysToYearStart, daysBeforeMonth, isLeapYear, nsPerDay],
    by norm_num [calculateTotalForPeriodGORM, GoDate.instant, GoDate.toDays,
      daysToYearStart, daysBeforeMonth, isLeapYear, nsPerDay]⟩

/-- C8: views "income" and "expenses" return an ephemeral summary — the
relevant aggregate with the other total forced to 0 and the net balance
derived from it alone — computed fresh with the store unchanged, and the
result never depends on the cached summary rows. -/
theorem C8_partial_views_ephemeral (st : DBState) (g : String) (d : GoDate)
    (ps pe : GoDate) (hcpd : CalculatePeriodDates d g = .ok (ps, pe)) :
    GetOrCreateFinancialSummary st g d "income" =
        (.ok ⟨g, ps, pe, calculateTotalForPeriodGORM st.incomes ps pe, 0,
              calculateTotalForPeriodGORM st.incomes ps pe - 0⟩, st) ∧
      GetOrCreateFinancialSummary st g d "expenses" =
        (.ok ⟨g, ps, pe, 0, calculateTotalForPeriodGORM st.expenses ps pe,
              0 - calculateTotalForPeriodGORM st.expenses ps pe⟩, st) ∧
      calculateTotalForPeriodGORM st.incomes ps pe - 0 =
        calculateTotalForPeriodGORM st.incomes ps pe ∧
      0 - calculateTotalForPeriodGORM st.expenses ps pe =
        -calculateTotalForPeriodGORM st.expenses ps pe ∧
      (∀ rows : List FinancialSummary,
        GetOrCreateFinancialSummary ⟨rows, st.incomes, st.expenses⟩ g d "income" =
          (.ok ⟨g, ps, pe, calculateTotalForPeriodGORM st.incomes ps pe, 0,
                calculateTotalForPeriodGORM st.incomes ps pe - 0⟩,
           ⟨rows, st.incomes, st.expenses⟩)) ∧
      (∀ rows : List FinancialSummary,
        GetOrCreateFinancialSummary ⟨rows, st.incomes, st.expenses⟩ g d "expenses" =
          (.ok ⟨g, ps, pe, 0, calculateTotalForPeriodGORM st.expenses ps pe,
                0 - calculateTotalForPeriodGORM st.expenses ps pe⟩,
           ⟨rows, st.incomes, st.expenses⟩)) := by
  refine ⟨?_, ?_, sub_zero _, zero_sub _, fun rows => ?_, fun rows => ?_⟩ <;>
    simp only [GetOrCreateFinancialSummary, GetOrCreateAux, hcpd] <;> rfl

/-- C8 witness. -/
theorem C8_partial_views_ephemeral_witness :
    CalculatePeriodDates ⟨2023, 4, 10, 0⟩ "monthly" =
        .ok (⟨2023, 4, 1, 0⟩, ⟨2023, 4, 30, 0⟩) ∧
      GetOrCreateFinancialSummary ⟨[], [⟨1000, ⟨2023, 4, 15, 0⟩⟩], []⟩
          "monthly" ⟨2023, 4, 10, 0⟩ "income" =
        (.ok ⟨"monthly", ⟨2023, 4, 1, 0⟩, ⟨2023, 4, 30, 0⟩,
              calculateTotalForPeriodGORM [⟨1000, ⟨2023, 4, 15, 0⟩⟩]
                ⟨2023, 4, 1, 0⟩ ⟨2023, 4, 30, 0⟩, 0,
              calculateTotalForPeriodGORM [⟨1000, ⟨2023, 4, 15, 0⟩⟩]
                ⟨2023, 4, 1, 0⟩ ⟨2023, 4, 30, 0⟩ - 0⟩,
         ⟨[], [⟨1000, ⟨2023, 4, 15, 0⟩⟩], []⟩) :=
  ⟨by decide,
    (C8_partial_views_ephemeral ⟨[], [⟨1000, ⟨2023, 4, 15, 0⟩⟩], []⟩
      "monthly" ⟨2023, 4, 10, 0⟩ ⟨2023, 4, 1, 0⟩ ⟨2023, 4, 30, 0⟩ (by decide)).1⟩

/-- C9 (amended): once the granularity is valid (the period calculation
runs first and its failure takes precedence), views "savings" and "debts"
fail with the not-yet-implemented error and any view other than
"overall"/"income"/"expenses"/"savings"/"debts" — except the empty string,
which defaults to "overall" — fails with the invalid-view error; the two
errors are distinct and the store is unchanged in every failure case. -/
theorem C9_unimplemented_and_invalid_views (st : DBState) (g : String) (d : GoDate)
    (ps pe : GoDate) (v : String)
    (hcpd : CalculatePeriodDates d g = .ok (ps, pe)) :
    GetOrCreateFinancialSummary st g d "savings" =
        (.error (.notImplemented "savings"), st) ∧
      GetOrCreateFinancialSummary st g d "debts" =
        (.error (.notImplemented "debts"), st) ∧
      (v ≠ "" → v ≠ "overall" → v ≠ "income" → v ≠ "expenses" →
        v ≠ "savings" → v ≠ "debts" →
        GetOrCreateFinancialSummary st g d v = (.error (.invalidView v), st)) ∧
      (∀ a b : String, SvcErr.notImplemented a ≠ SvcErr.invalidView b) := by
  refine ⟨?_, ?_, ?_, fun a b => by simp⟩
  · simp only [GetOrCreateFinancialSummary, GetOrCreateAux, hcpd]
    rfl
  · simp only [GetOrCreateFinancialSummary, GetOrCreateAux, hcpd]
    rfl
  · intro h1 h2 h3 h4 h5 h6
    simp only [GetOrCreateFinancialSummary, GetOrCreateAux, hcpd, if_neg h1, if_neg h2,
      if_neg h3, if_neg h4, if_neg (show ¬(v = "savings" ∨ v = "debts") from
        fun hc => hc.elim h5 h6)]

/-- C9 witness. -/
theorem C9_unimplemented_and_invalid_views_witness :
    CalculatePeriodDates ⟨2023, 4, 10, 0⟩ "monthly" =
        .ok (⟨2023, 4, 1, 0⟩, ⟨2023, 4, 30, 0⟩) ∧
      GetOrCreateFinancialSummary ⟨[], [], []⟩ "monthly" ⟨2023, 4, 10, 0⟩ "savings" =
        (.error (.notImplemented "savings"), ⟨[], [], []⟩) :=
  ⟨by decide,
    (C9_unimplemented_and_invalid_views ⟨[], [], []⟩ "monthly" ⟨2023, 4, 10, 0⟩
      ⟨2023, 4, 1, 0⟩ ⟨2023, 4, 30, 0⟩ "weird" (by decide)).1⟩

/-- C9 counterexample to the claim as stated: the empty view string is a
view value other than the five listed ones, yet the call does not fail
with the invalid-view error — it succeeds (and caches) via the "overall"
default. -/
theorem C9_counterexample_empty_view :
    GetOrCreateFinancialSummary ⟨[], [], []⟩ "monthly" ⟨2023, 4, 10, 0⟩ "" =
        (.ok ⟨"monthly", ⟨2023, 4, 1, 0⟩, ⟨2023, 4, 30, 0⟩, 0, 0, 0 - 0⟩,
         ⟨[⟨"monthly", ⟨2023, 4, 1, 0⟩, ⟨2023, 4, 30, 0⟩, 0, 0, 0 - 0⟩], [], []⟩) ∧
      ∀ st' : DBState,
        GetOrCreateFinancialSummary ⟨[], [], []⟩ "monthly" ⟨2023, 4, 10, 0⟩ "" ≠
          (.error (.invalidView ""), st') := by
  constructor
  · rfl
  · intro st' hc
    rw [show GetOrCreateFinancialSummary ⟨[], [], []⟩ "monthly" ⟨2023, 4, 10, 0⟩ "" =
        (.ok ⟨"monthly", ⟨2023, 4, 1, 0⟩, ⟨2023, 4, 30, 0⟩, 0, 0, 0 - 0⟩,
         ⟨[⟨"monthly", ⟨2023, 4, 1, 0⟩, ⟨2023, 4, 30, 0⟩, 0, 0, 0 - 0⟩], [], []⟩) from rfl] at hc
    have := congrArg Prod.fst hc
    exact Except.noConfusion this

/-- C10: the empty view string is silently replaced by "overall": the call
is indistinguishable from an "overall" call (cache read, possible insert
and returned row included), and on a concrete empty store it does insert
one persisted row. -/
theorem C10_empty_view_defaults_to_overall (st : DBState) (g : String) (d : GoDate)
    (interf : List FinancialSummary) :
    GetOrCreateAux st g d "" interf = GetOrCreateAux st g d "overall" interf ∧
      GetOrCreateFinancialSummary st g d "" =
        GetOrCreateFinancialSummary st g d "overall" ∧
      (GetOrCreateFinancialSummary ⟨[], [], []⟩ "monthly" ⟨2023, 4, 10, 0⟩
          "").2.summaries.length = 1 :=
  ⟨rfl, rfl, rfl⟩

theorem fetch_notFound_find_none (st : DBState) (g : String) (ps : GoDate)
    (h : fetchSummaryFromDB st g ps = .error .recordNotFound) :
    st.summaries.find? (fun s => decide (s.summaryType = g ∧ s.periodStartDate = ps)) =
      none := by
  unfold fetchSummaryFromDB at h
  cases hf : st.summaries.find? fun s =>
      decide (s.summaryType = g ∧ s.periodStartDate = ps) with
  | none => rfl
  | some r =>
      rw [hf] at h
      exact Except.noConfusion h

/-- C3: when the insert of the freshly computed overall summary fails with
a uniqueness violation on `idx_type_period`, the locally computed values
are discarded and the result of re-reading the now-existing row is
returned (in the concrete race, the row the concurrent request inserted);
a store failure that is not a uniqueness violation, and a first-read
failure other than record-not-found, surface as storage errors. -/
theorem C3_unique_violation_rereads :
    (∀ (o : OverallDBOutcome) (g : String) (ps pe : GoDate) (ti te : Rat) (se : DBErr),
        o.fetchExisting = .error .recordNotFound →
        o.incomeTotal = .ok ti → o.expenseTotal = .ok te →
        o.storeResult = .error se →
        (isUniqueViolation se = true →
          getOrCreateOverallFlow o g ps pe =
            (match o.refetch with
             | .ok s2 => .ok s2
             | .error e2 => .error (.db e2))) ∧
        (isUniqueViolation se = false →
          getOrCreateOverallFlow o g ps pe = .error (.storeOverall se))) ∧
    (∀ (o : OverallDBOutcome) (g : String) (ps pe : GoDate) (fe : DBErr),
        o.fetchExisting = .error fe → fe ≠ .recordNotFound →
        getOrCreateOverallFlow o g ps pe = .error (.retrieveOverall fe)) ∧
    (∀ (st : DBState) (g : String) (d : GoDate) (ps pe : GoDate) (r : FinancialSummary),
        CalculatePeriodDates d g = .ok (ps, pe) →
        fetchSummaryFromDB st g ps = .error .recordNotFound →
        r.summaryType = g → r.periodStartDate = ps →
        GetOrCreateAux st g d "overall" [r] =
          (.ok r, { st with summaries := st.summaries ++ [r] })) := by
  refine ⟨?_, ?_, ?_⟩
  · intro o g ps pe ti te se hf hi he hs
    constructor
    · intro hu
      simp only [getOrCreateOverallFlow, hf, hi, he, hs, hu]
      rfl
    · intro hu
      simp only [getOrCreateOverallFlow, hf, hi, he, hs, hu]
      rfl
  · intro o g ps pe fe hf hne
    simp only [getOrCreateOverallFlow, hf, if_neg hne]
  · intro st g d ps pe r hcpd hmiss hr1 hr2
    have hall := (fetch_notFound_iff st g ps).mp hmiss
    have hanyR : st.summaries.any (sameSummaryKey r) = false := by
      apply any_sameKey_false
      intro x hx
      rw [hr1, hr2]
      exact hall x hx
    have hst1 : applyConcurrentInserts st [r] =
        { st with summaries := st.summaries ++ [r] } := by
      unfold applyConcurrentInserts
      simp only [List.foldl_cons, List.foldl_nil, hanyR, Bool.false_eq_true, if_false]
    have hanyNs : (st.summaries ++ [r]).any
        (sameSummaryKey ⟨g, ps, pe,
          calculateTotalForPeriodGORM st.incomes ps pe,
          calculateTotalForPeriodGORM st.expenses ps pe,
          calculateTotalForPeriodGORM st.incomes ps pe -
            calculateTotalForPeriodGORM st.expenses ps pe⟩) = true := by
      rw [List.any_eq_true]
      refine ⟨r, by simp, ?_⟩
      simp only [sameSummaryKey, decide_eq_true_eq]
      exact ⟨hr1, hr2⟩
    have hstore : storeSummaryInDB { st with summaries := st.summaries ++ [r] }
        ⟨g, ps, pe,
          calculateTotalForPeriodGORM st.incomes ps pe,
          calculateTotalForPeriodGORM st.expenses ps pe,
          calculateTotalForPeriodGORM st.incomes ps pe -
            calculateTotalForPeriodGORM st.expenses ps pe⟩ =
        .error (.fail pgDuplicateKeyMsg) := by
      unfold storeSummaryInDB
      simp only [hanyNs, if_true]
    have hfind : st.summaries.find?
        (fun s => decide (s.summaryType = g ∧ s.periodStartDate = ps)) = none :=
      fetch_notFound_find_none st g ps hmiss
    have hfetch1 : fetchSummaryFromDB { st with summaries := st.summaries ++ [r] } g ps =
        .ok r := by
      unfold fetchSummaryFromDB
      simp only
      rw [List.find?_append, hfind]
      rw [List.find?_cons_of_pos _ (by simp only [decide_eq_true_eq]; exact ⟨hr1, hr2⟩)]
      rfl
    have hviol : isUniqueViolation (DBErr.fail pgDuplicateKeyMsg) = true := by decide
    simp only [GetOrCreateAux, hcpd, hmiss, hst1, hstore, hviol, hfetch1]
    rfl

/-- C3 witness: a concurrent insert of the same key between the cache miss
and the store makes the call return the concurrently inserted row. -/
theorem C3_unique_violation_rereads_witness :
    CalculatePeriodDates ⟨2023, 4, 10, 0⟩ "monthly" =
        .ok (⟨2023, 4, 1, 0⟩, ⟨2023, 4, 30, 0⟩) ∧
      fetchSummaryFromDB ⟨[], [⟨1000, ⟨2023, 4, 15, 0⟩⟩], []⟩ "monthly" ⟨2023, 4, 1, 0⟩ =
        .error .recordNotFound ∧
      GetOrCreateAux ⟨[], [⟨1000, ⟨2023, 4, 15, 0⟩⟩], []⟩ "monthly" ⟨2023, 4, 10, 0⟩
          "overall" [⟨"monthly", ⟨2023, 4, 1, 0⟩, ⟨2023, 4, 30, 0⟩, 77, 7, 70⟩] =
        (.ok ⟨"monthly", ⟨2023, 4, 1, 0⟩, ⟨2023, 4, 30, 0⟩, 77, 7, 70⟩,
         ⟨[⟨"monthly", ⟨2023, 4, 1, 0⟩, ⟨2023, 4, 30, 0⟩, 77, 7, 70⟩],
          [⟨1000, ⟨2023, 4, 15, 0⟩⟩], []⟩) :=
  ⟨by decide, rfl,
    C3_unique_violation_rereads.2.2 ⟨[], [⟨1000, ⟨2023, 4, 15, 0⟩⟩], []⟩ "monthly"
      ⟨2023, 4, 10, 0⟩ ⟨2023, 4, 1, 0⟩ ⟨2023, 4, 30, 0⟩
      ⟨"monthly", ⟨2023, 4, 1, 0⟩, ⟨2023, 4, 30, 0⟩, 77, 7, 70⟩
      (by decide) rfl rfl rfl⟩

theorem unique_append (l : List FinancialSummary) (s : FinancialSummary)
    (h : UniqueSummaryKeys l) (hno : l.any (sameSummaryKey s) = false) :
    UniqueSummaryKeys (l ++ [s]) := by
  rw [UniqueSummaryKeys, List.pairwise_append]
  refine ⟨h, List.pairwise_singleton _ _, ?_⟩
  intro a ha b hb
  have hbs : b = s := by simpa using hb
  intro hcontra
  rw [hbs] at hcontra
  have hkey : sameSummaryKey s a = true := by
    simp only [sameSummaryKey, decide_eq_true_eq]
    exact hcontra
  have hT : l.any (sameSummaryKey s) = true := List.any_eq_true.mpr ⟨a, ha, hkey⟩
  rw [hT] at hno
  exact Bool.noConfusion hno

theorem unique_applyConcurrentInserts (rows : List FinancialSummary) (st : DBState)
    (h : UniqueSummaryKeys st.summaries) :
    UniqueSummaryKeys (applyConcurrentInserts st rows).summaries := by
  induction rows generalizing st with
  | nil => exact h
  | cons r rest ih =>
      unfold applyConcurrentInserts
      simp only [List.foldl_cons]
      have hstep : UniqueSummaryKeys
          ((if st.summaries.any (sameSummaryKey r) = true then st
            else { st with summaries := st.summaries ++ [r] }).summaries) := by
        split_ifs with hc
        · exact h
        · refine unique_append _ _ h ?_
          cases hb : st.summaries.any (sameSummaryKey r) with
          | false => rfl
          | true => exact absurd hb hc
      exact ih _ hstep

theorem store_ok_unique (st : DBState) (ns s2 : FinancialSummary) (st2 : DBState)
    (h : UniqueSummaryKeys st.summaries)
    (hs : storeSummaryInDB st ns = .ok (s2, st2)) :
    UniqueSummaryKeys st2.summaries := by
  unfold storeSummaryInDB at hs
  by_cases hc : st.summaries.any (sameSummaryKey ns) = true
  · rw [if_pos hc] at hs
    exact Except.noConfusion hs
  · rw [if_neg hc] at hs
    have hpair : (ns, { st with summaries := st.summaries ++ [ns] }) = (s2, st2) := by
      injection hs
    have hst2 : { st with summaries := st.summaries ++ [ns] } = st2 :=
      congrArg Prod.snd hpair
    rw [← hst2]
    refine unique_append _ _ h ?_
    cases hb : st.summaries.any (sameSummaryKey ns) with
    | false => rfl
    | true => exact absurd hb hc

/-- C4: assuming the store rejects a second insert with the same
`(granularity, period_start)` key (embedded in `storeSummaryInDB` and in
the concurrent inserts), every operation of the summary core — a
get-or-create under any view and any concurrent interference, and an
invalidation for any granularity list — preserves the invariant that the
persisted cache rows have pairwise distinct keys. -/
theorem C4_unique_key_invariant (st : DBState) (g v : String) (d : GoDate)
    (interf : List FinancialSummary) (gs : List String)
    (h : UniqueSummaryKeys st.summaries) :
    UniqueSummaryKeys (GetOrCreateAux st g d v interf).2.summaries ∧
      UniqueSummaryKeys (InvalidateSummariesForDate st d gs).2.summaries := by
  constructor
  · simp only [GetOrCreateAux]
    cases hcpd : CalculatePeriodDates d g with
    | error e => exact h
    | ok pr =>
        obtain ⟨ps, pe⟩ := pr
        dsimp only
        have hoverall : UniqueSummaryKeys
            ((match fetchSummaryFromDB st g ps with
              | Except.ok summary => ((Except.ok summary : Except SvcErr FinancialSummary), st)
              | Except.error fe =>
                if fe = DBErr.recordNotFound then
                  match
                    storeSummaryInDB (applyConcurrentInserts st interf)
                      { summaryType := g, periodStartDate := ps, periodEndDate := pe,
                        totalIncome := calculateTotalForPeriodGORM st.incomes ps pe,
                        totalExpenses := calculateTotalForPeriodGORM st.expenses ps pe,
                        netBalance :=
                          calculateTotalForPeriodGORM st.incomes ps pe -
                            calculateTotalForPeriodGORM st.expenses ps pe } with
                  | Except.ok (storedSummary, st2) => (Except.ok storedSummary, st2)
                  | Except.error storeErr =>
                    if isUniqueViolation storeErr = true then
                      match fetchSummaryFromDB (applyConcurrentInserts st interf) g ps with
                      | Except.ok s2 => (Except.ok s2, applyConcurrentInserts st interf)
                      | Except.error e2 =>
                          (Except.error (SvcErr.db e2), applyConcurrentInserts st interf)
                    else (Except.error (SvcErr.storeOverall storeErr),
                          applyConcurrentInserts st interf)
                else (Except.error (SvcErr.retrieveOverall fe), st)).2.summaries) := by
          cases hf : fetchSummaryFromDB st g ps with
          | ok summary => exact h
          | error fe =>
              dsimp only
              split_ifs with hfe
              · have hu1 := unique_applyConcurrentInserts interf st h
                cases hs : storeSummaryInDB (applyConcurrentInserts st interf)
                    ⟨g, ps, pe,
                      calculateTotalForPeriodGORM st.incomes ps pe,
                      calculateTotalForPeriodGORM st.expenses ps pe,
                      calculateTotalForPeriodGORM st.incomes ps pe -
                        calculateTotalForPeriodGORM st.expenses ps pe⟩ with
                | ok pr2 =>
                    obtain ⟨s2, st2⟩ := pr2
                    exact store_ok_unique _ _ _ _ hu1 hs
                | error se =>
                    dsimp only
                    split_ifs with hq
                    · cases hf2 : fetchSummaryFromDB (applyConcurrentInserts st interf) g ps
                      · exact hu1
                      · exact hu1
                    · exact hu1
              · exact h
        split_ifs with hov hview1 hview2 hview3 <;>
          first
          | exact h
          | exact hoverall
  · have haux : ∀ (types : List String) (acc : Option String × DBState),
        UniqueSummaryKeys acc.2.summaries →
        UniqueSummaryKeys
          (types.foldl
            (fun acc periodType =>
              match CalculatePeriodDates d periodType with
              | .error e =>
                (acc.1 <|> some ("failed to calculate period for " ++ periodType ++ ": " ++ e),
                 acc.2)
              | .ok (periodStartDate, _) =>
                (acc.1,
                 { acc.2 with
                    summaries := acc.2.summaries.filter fun s =>
                      !(decide (s.summaryType = periodType ∧
                        s.periodStartDate = periodStartDate)) }))
            acc).2.summaries := by
      intro types
      induction types with
      | nil => intro acc hacc; exact hacc
      | cons gg rest ih =>
          intro acc hacc
          simp only [List.foldl_cons]
          cases hc : CalculatePeriodDates d gg with
          | error e => exact ih _ hacc
          | ok pr =>
              obtain ⟨ps, pe⟩ := pr
              refine ih _ ?_
              exact hacc.filter _
    exact haux gs (none, st) h

theorem orElse_some_absorb (a : Option String) (m : String) (x : Option String) :
    ((a <|> some m) <|> x) = (a <|> some m) := by
  cases a <;> rfl

theorem invalidate_foldl_spec (d : GoDate) (gs : List String) :
    ∀ acc : Option String × DBState,
      (gs.foldl (invalidateStep d) acc).1 =
          (acc.1 <|> (gs.find? (granularityCalcFails d)).map (invalidateErrMsg d)) ∧
        (gs.foldl (invalidateStep d) acc).2 =
          { acc.2 with
             summaries := acc.2.summaries.filter fun s => !invalidationTarget d gs s } := by
  induction gs with
  | nil =>
      intro acc
      constructor
      · show acc.1 = (acc.1 <|> Option.map (invalidateErrMsg d) (List.find? (granularityCalcFails d) []))
        cases acc.1 <;> rfl
      · show acc.2 = _
        rw [show (fun s : FinancialSummary => !invalidationTarget d [] s) =
            (fun _ => true) from funext fun s => by simp [invalidationTarget]]
        rw [List.filter_true]
  | cons g rest ih =>
      intro acc
      simp only [List.foldl_cons]
      obtain ⟨ih1, ih2⟩ := ih (invalidateStep d acc g)
      cases hc : CalculatePeriodDates d g with
      | error e =>
          have hstep : invalidateStep d acc g =
              (acc.1 <|> some ("failed to calculate period for " ++ g ++ ": " ++ e), acc.2) := by
            unfold invalidateStep
            rw [hc]
          have hfails : granularityCalcFails d g = true := by
            unfold granularityCalcFails
            rw [hc]
          have hmsg : invalidateErrMsg d g =
              "failed to calculate period for " ++ g ++ ": " ++ e := by
            unfold invalidateErrMsg
            rw [hc]
          constructor
          · rw [ih1, hstep]
            rw [List.find?_cons_of_pos _ hfails]
            rw [Option.map_some', hmsg, orElse_some_absorb]
          · rw [ih2, hstep]
            rw [show (fun s : FinancialSummary => !invalidationTarget d (g :: rest) s) =
                (fun s => !invalidationTarget d rest s) from funext fun s => by
              simp [invalidationTarget, hc]]
      | ok pr =>
          obtain ⟨ps, pe⟩ := pr
          have hstep : invalidateStep d acc g =
              (acc.1,
               { acc.2 with
                  summaries := acc.2.summaries.filter fun s =>
                    !(decide (s.summaryType = g ∧ s.periodStartDate = ps)) }) := by
            unfold invalidateStep
            rw [hc]
          have hok : granularityCalcFails d g = false := by
            unfold granularityCalcFails
            rw [hc]
          constructor
          · rw [ih1, hstep]
            rw [List.find?_cons_of_neg _ (by rw [hok]; exact Bool.false_ne_true)]
          · rw [ih2, hstep]
            simp only [List.filter_filter]
            rw [show (fun a : FinancialSummary =>
                !invalidationTarget d rest a &&
                  !decide (a.summaryType = g ∧ a.periodStartDate = ps)) =
              (fun s => !invalidationTarget d (g :: rest) s) from funext fun a => by
              simp [invalidationTarget, hc, Bool.not_or, Bool.and_comm]]

/-- C7: invalidation deletes exactly the cache rows keyed by a listed
granularity and the start of its period containing the date (rows of
other granularities or periods, and the transaction tables, are
untouched); a granularity whose period calculation fails is recorded as
the first error without aborting the remaining granularities; an empty
granularity list deletes nothing and reports no error; deleting zero
matching rows is not an error, so a repeat of a successful invalidation
succeeds and changes nothing. -/
theorem C7_invalidation_scope (st : DBState) (d : GoDate) (gs : List String) :
    (InvalidateSummariesForDate st d gs).2.summaries =
        st.summaries.filter (fun s => !invalidationTarget d gs s) ∧
      (InvalidateSummariesForDate st d gs).1 =
        (gs.find? (granularityCalcFails d)).map (invalidateErrMsg d) ∧
      (InvalidateSummariesForDate st d gs).2.incomes = st.incomes ∧
      (InvalidateSummariesForDate st d gs).2.expenses = st.expenses ∧
      InvalidateSummariesForDate st d [] = (none, st) ∧
      ((InvalidateSummariesForDate st d gs).1 = none →
        InvalidateSummariesForDate (InvalidateSummariesForDate st d gs).2 d gs =
          ((none : Option String), (InvalidateSummariesForDate st d gs).2)) := by
  obtain ⟨h1, h2⟩ := invalidate_foldl_spec d gs (none, st)
  have hfst : (InvalidateSummariesForDate st d gs).1 =
      (gs.find? (granularityCalcFails d)).map (invalidateErrMsg d) := by
    show (gs.foldl (invalidateStep d) (none, st)).1 = _
    rw [h1]
    rfl
  have hsnd : (InvalidateSummariesForDate st d gs).2 =
      { st with summaries := st.summaries.filter fun s => !invalidationTarget d gs s } := h2
  refine ⟨by rw [hsnd], hfst, by rw [hsnd], by rw [hsnd], ?_, ?_⟩
  · show ([] : List String).foldl (invalidateStep d) (none, st) = (none, st)
    rfl
  · intro hnone
    obtain ⟨g1, g2⟩ := invalidate_foldl_spec d gs
      ((none : Option String), (InvalidateSummariesForDate st d gs).2)
    have hfind : (gs.find? (granularityCalcFails d)).map (invalidateErrMsg d) = none := by
      rw [← hfst]
      exact hnone
    have hrep : (InvalidateSummariesForDate (InvalidateSummariesForDate st d gs).2 d gs).1 =
        none := by
      show (gs.foldl (invalidateStep d) (none, _)).1 = none
      rw [g1]
      simpa using hfind
    have hrepState : (InvalidateSummariesForDate (InvalidateSummariesForDate st d gs).2 d gs).2 =
        (InvalidateSummariesForDate st d gs).2 := by
      show (gs.foldl (invalidateStep d) (none, _)).2 = _
      rw [g2, hsnd]
      simp only [List.filter_filter]
      rw [show (fun s : FinancialSummary =>
          !invalidationTarget d gs s && !invalidationTarget d gs s) =
        (fun s => !invalidationTarget d gs s) from funext fun s => by
        rw [Bool.and_self]]
    apply Prod.ext
    · exact hrep
    · exact hrepState

/-- C7 witness: invalidating monthly for 2023-04-10 deletes only the
cached April 2023 monthly row, keeps the yearly row, reports no error,
and doing it again succeeds and changes nothing. -/
theorem C7_invalidation_scope_witness :
    (InvalidateSummariesForDate
        ⟨[⟨"monthly", ⟨2023, 4, 1, 0⟩, ⟨2023, 4, 30, 0⟩, 3, 1, 2⟩,
          ⟨"yearly", ⟨2023, 1, 1, 0⟩, ⟨2023, 12, 31, 0⟩, 3, 1, 2⟩], [], []⟩
        ⟨2023, 4, 10, 0⟩ ["monthly"]).2.summaries =
      [⟨"yearly", ⟨2023, 1, 1, 0⟩, ⟨2023, 12, 31, 0⟩, 3, 1, 2⟩] ∧
    (InvalidateSummariesForDate
        ⟨[⟨"monthly", ⟨2023, 4, 1, 0⟩, ⟨2023, 4, 30, 0⟩, 3, 1, 2⟩,
          ⟨"yearly", ⟨2023, 1, 1, 0⟩, ⟨2023, 12, 31, 0⟩, 3, 1, 2⟩], [], []⟩
        ⟨2023, 4, 10, 0⟩ ["monthly"]).1 = none ∧
    InvalidateSummariesForDate
        (InvalidateSummariesForDate
          ⟨[⟨"monthly", ⟨2023, 4, 1, 0⟩, ⟨2023, 4, 30, 0⟩, 3, 1, 2⟩,
            ⟨"yearly", ⟨2023, 1, 1, 0⟩, ⟨2023, 12, 31, 0⟩, 3, 1, 2⟩], [], []⟩
          ⟨2023, 4, 10, 0⟩ ["monthly"]).2
        ⟨2023, 4, 10, 0⟩ ["monthly"] =
      ((none : Option String),
       (InvalidateSummariesForDate
          ⟨[⟨"monthly", ⟨2023, 4, 1, 0⟩, ⟨2023, 4, 30, 0⟩, 3, 1, 2⟩,
            ⟨"yearly", ⟨2023, 1, 1, 0⟩, ⟨2023, 12, 31, 0⟩, 3, 1, 2⟩], [], []⟩
          ⟨2023, 4, 10, 0⟩ ["monthly"]).2) :=
  ⟨rfl, rfl,
    (C7_invalidation_scope
      ⟨[⟨"monthly", ⟨2023, 4, 1, 0⟩, ⟨2023, 4, 30, 0⟩, 3, 1, 2⟩,
        ⟨"yearly", ⟨2023, 1, 1, 0⟩, ⟨2023, 12, 31, 0⟩, 3, 1, 2⟩], [], []⟩
      ⟨2023, 4, 10, 0⟩ ["monthly"]).2.2.2.2.2 rfl⟩

/-- C4 witness. -/
theorem C4_unique_key_invariant_witness :
    UniqueSummaryKeys [⟨"monthly", ⟨2023, 4, 1, 0⟩, ⟨2023, 4, 30, 0⟩, 3, 1, 2⟩] ∧
      (UniqueSummaryKeys
          (GetOrCreateAux ⟨[⟨"monthly", ⟨2023, 4, 1, 0⟩, ⟨2023, 4, 30, 0⟩, 3, 1, 2⟩], [], []⟩
            "monthly" ⟨2023, 5, 10, 0⟩ "overall" []).2.summaries ∧
        UniqueSummaryKeys
          (InvalidateSummariesForDate
            ⟨[⟨"monthly", ⟨2023, 4, 1, 0⟩, ⟨2023, 4, 30, 0⟩, 3, 1, 2⟩], [], []⟩
            ⟨2023, 5, 10, 0⟩ ["monthly", "weekly"]).2.summaries) :=
  ⟨List.pairwise_singleton _ _,
    C4_unique_key_invariant
      ⟨[⟨"monthly", ⟨2023, 4, 1, 0⟩, ⟨2023, 4, 30, 0⟩, 3, 1, 2⟩], [], []⟩
      "monthly" "overall" ⟨2023, 5, 10, 0⟩ [] ["monthly", "weekly"]
      (List.pairwise_singleton _ _)⟩

/-- C5: for every valid target date, `CalculatePeriodDates` returns the
canonical bucket: weekly, the Monday on or before the date (a Sunday
steps back six days) through Monday + 6; monthly, the first through the
last calendar day of the month (28/29/30/31 with February depending on
leap years); yearly, January 1 through December 31; and any other
granularity string fails with the invalid-summary-type error. -/
theorem C5_canonical_period_buckets (t : GoDate) (h : t.Valid) :
    (∃ s e : GoDate, CalculatePeriodDates t "weekly" = .ok (s, e) ∧
        s.weekday = 1 ∧ s.toDays ≤ t.toDays ∧ t.toDays - s.toDays ≤ 6 ∧
        (t.weekday = 0 → s.toDays = t.toDays - 6) ∧
        e.toDays = s.toDays + 6 ∧ s.tod = 0 ∧ e.tod = 0) ∧
      CalculatePeriodDates t "monthly" =
        .ok (⟨t.year, t.month, 1, 0⟩,
             ⟨t.year, t.month, daysInMonth t.year t.month, 0⟩) ∧
      daysInMonth t.year 2 = (if isLeapYear t.year then 29 else 28) ∧
      (daysInMonth t.year t.month = 28 ∨ daysInMonth t.year t.month = 29 ∨
        daysInMonth t.year t.month = 30 ∨ daysInMonth t.year t.month = 31) ∧
      CalculatePeriodDates t "yearly" =
        .ok (⟨t.year, 1, 1, 0⟩, ⟨t.year, 12, 31, 0⟩) ∧
      (∀ g : String, g ≠ "weekly" → g ≠ "monthly" → g ≠ "yearly" →
        CalculatePeriodDates t g = .error ("invalid summary type: " ++ g)) := by
  refine ⟨?_, CalculatePeriodDates_monthly t h, rfl, ?_, CalculatePeriodDates_yearly t h,
    fun g h1 h2 h3 => CalculatePeriodDates_invalid t g h1 h2 h3⟩
  · obtain ⟨s, e, hcpd, hsV, heV, hst, het, hsD, heD⟩ := CalculatePeriodDates_weekly t h
    have hwt : t.weekday = (t.toDays + 6) % 7 := rfl
    have hws : s.weekday = (s.toDays + 6) % 7 := rfl
    refine ⟨s, e, hcpd, ?_, ?_, ?_, ?_, heD, hst, het⟩
    · rw [hws]
      by_cases hz : t.weekday = 0
      · rw [if_pos hz] at hsD
        rw [hwt] at hz
        omega
      · rw [if_neg hz] at hsD
        rw [hwt] at hz
        omega
    · by_cases hz : t.weekday = 0
      · rw [if_pos hz] at hsD
        omega
      · rw [if_neg hz] at hsD
        rw [hwt] at hz
        omega
    · by_cases hz : t.weekday = 0
      · rw [if_pos hz] at hsD
        omega
      · rw [if_neg hz] at hsD
        rw [hwt] at hz
        omega
    · intro hz
      rw [if_pos hz] at hsD
      omega
  · unfold daysInMonth
    split_ifs <;> omega

/-- C5 witness: the spec's own vectors at Wednesday 2023-11-15. -/
theorem C5_canonical_period_buckets_witness :
    (GoDate.mk 2023 11 15 0).Valid ∧
      CalculatePeriodDates ⟨2023, 11, 15, 0⟩ "weekly" =
        .ok (⟨2023, 11, 13, 0⟩, ⟨2023, 11, 19, 0⟩) ∧
      CalculatePeriodDates ⟨2023, 11, 15, 0⟩ "monthly" =
        .ok (⟨2023, 11, 1, 0⟩, ⟨2023, 11, 30, 0⟩) ∧
      CalculatePeriodDates ⟨2023, 11, 15, 0⟩ "yearly" =
        .ok (⟨2023, 1, 1, 0⟩, ⟨2023, 12, 31, 0⟩) ∧
      CalculatePeriodDates ⟨2023, 11, 15, 0⟩ "daily" =
        .error "invalid summary type: daily" :=
  ⟨by decide, by decide,
    (C5_canonical_period_buckets ⟨2023, 11, 15, 0⟩ (by decide)).2.1,
    (C5_canonical_period_buckets ⟨2023, 11, 15, 0⟩ (by decide)).2.2.2.2.1,
    (C5_canonical_period_buckets ⟨2023, 11, 15, 0⟩ (by decide)).2.2.2.2.2 "daily"
      (by decide) (by decide) (by decide)⟩

/-- C6 (amended): for every valid target instant and valid granularity the
period boundaries come back normalized to midnight with
`start ≤ target` as instants and `start ≤ end`; the target's calendar day
lies within `[start, end]`, and `target ≤ end` holds as instants whenever
the target is itself at midnight (a target with a nonzero time of day on
the period's last day exceeds the midnight-normalized `end`, see the
counterexample); a Sunday target falls in the week of the preceding
Monday. -/
theorem C6_amended_target_within_period (t : GoDate) (g : String) (h : t.Valid)
    (hg : g = "weekly" ∨ g = "monthly" ∨ g = "yearly") :
    ∃ s e : GoDate, CalculatePeriodDates t g = .ok (s, e) ∧
      s.instant ≤ t.instant ∧ t.toDays ≤ e.toDays ∧
      (t.tod = 0 → t.instant ≤ e.instant) ∧
      s.instant ≤ e.instant ∧ s.tod = 0 ∧ e.tod = 0 ∧
      (g = "weekly" → t.weekday = 0 → s.toDays = t.toDays - 6 ∧ e.toDays = t.toDays) := by
  have hv := h
  obtain ⟨hm1, hm2, hd1, hd2, ht1, ht2⟩ := hv
  rcases hg with hg | hg | hg <;> subst hg
  · obtain ⟨s, e, hcpd, hsV, heV, hst, het, hsD, heD⟩ := CalculatePeriodDates_weekly t h
    have hwt : t.weekday = (t.toDays + 6) % 7 := rfl
    have hsle : s.toDays ≤ t.toDays ∧ t.toDays ≤ s.toDays + 6 := by
      by_cases hz : t.weekday = 0
      · rw [if_pos hz] at hsD
        omega
      · rw [if_neg hz] at hsD
        rw [hwt] at hz
        omega
    refine ⟨s, e, hcpd, ?_, ?_, ?_, ?_, hst, het, ?_⟩
    · exact instant_mono s t (by omega) (by rw [hst]; exact ht1)
    · omega
    · intro htz
      exact instant_mono t e (by omega) (by rw [het, htz])
    · exact instant_mono s e (by omega) (by rw [hst, het])
    · intro _ hz
      rw [if_pos hz] at hsD
      omega
  · have hcpd := CalculatePeriodDates_monthly t h
    have hds := same_month_toDays t.year t.month t.day 1 t.tod 0
    have hde := same_month_toDays t.year t.month t.day (daysInMonth t.year t.month) t.tod 0
    have hEta : GoDate.toDays ⟨t.year, t.month, t.day, t.tod⟩ = t.toDays := rfl
    rw [hEta] at hds hde
    refine ⟨⟨t.year, t.month, 1, 0⟩, ⟨t.year, t.month, daysInMonth t.year t.month, 0⟩,
      hcpd, ?_, ?_, ?_, ?_, rfl, rfl, ?_⟩
    · exact instant_mono _ t (by omega) ht1
    · omega
    · intro htz
      exact instant_mono t _ (by omega) (by rw [htz])
    · exact instant_mono _ _ (by omega) (le_refl 0)
    · intro hw
      exact absurd hw (by decide)
  · have hcpd := CalculatePeriodDates_yearly t h
    have hyb := toDays_year_bounds t.year t.month t.day t.tod h
    have hEta : GoDate.toDays ⟨t.year, t.month, t.day, t.tod⟩ = t.toDays := rfl
    rw [hEta] at hyb
    refine ⟨⟨t.year, 1, 1, 0⟩, ⟨t.year, 12, 31, 0⟩, hcpd, ?_, ?_, ?_, ?_, rfl, rfl, ?_⟩
    · exact instant_mono _ t (by omega) ht1
    · omega
    · intro htz
      exact instant_mono t _ (by omega) (by rw [htz])
    · exact instant_mono _ _ (by omega) (le_refl 0)
    · intro hw
      exact absurd hw (by decide)

/-- C6 counterexample to the claim as stated: for the target instant
2023-12-31 00:00:00.000000001 (one nanosecond past midnight of the last
day of its yearly period) the computed `end` is midnight of 2023-12-31,
so `target ≤ end` fails at the instant level even though the target's
calendar day is within the period. -/
theorem C6_counterexample_time_of_day :
    (GoDate.mk 2023 12 31 1).Valid ∧
      CalculatePeriodDates ⟨2023, 12, 31, 1⟩ "yearly" =
        .ok (⟨2023, 1, 1, 0⟩, ⟨2023, 12, 31, 0⟩) ∧
      ¬((GoDate.mk 2023 12 31 1).instant ≤ (GoDate.mk 2023 12 31 0).instant) :=
  ⟨by decide, by decide, by decide⟩

/-- C6 witness: a weekday afternoon target (2023-11-15 at noon) sits
inside its weekly period in the amended sense. -/
theorem C6_amended_target_within_period_witness :
    (GoDate.mk 2023 11 15 43200000000000).Valid ∧
      (∃ s e : GoDate,
        CalculatePeriodDates ⟨2023, 11, 15, 43200000000000⟩ "weekly" = .ok (s, e) ∧
        s.instant ≤ (GoDate.mk 2023 11 15 43200000000000).instant ∧
        (GoDate.mk 2023 11 15 43200000000000).toDays ≤ e.toDays ∧
        ((GoDate.mk 2023 11 15 43200000000000).tod = 0 →
          (GoDate.mk 2023 11 15 43200000000000).instant ≤ e.instant) ∧
        s.instant ≤ e.instant ∧ s.tod = 0 ∧ e.tod = 0 ∧
        ("weekly" = "weekly" → (GoDate.mk 2023 11 15 43200000000000).weekday = 0 →
          s.toDays = (GoDate.mk 2023 11 15 43200000000000).toDays - 6 ∧
            e.toDays = (GoDate.mk 2023 11 15 43200000000000).toDays)) :=
  ⟨by decide,
    C6_amended_target_within_period ⟨2023, 11, 15, 43200000000000⟩ "weekly" (by decide)
      (Or.inl rfl)⟩
